import Mathlib

/-!
Verification of the raspicam node (src/raspicam_node.cpp) against its
natural-language specification.

The development shallowly embeds the pipeline-lifecycle code of the node:
the configuration loader `get_status`, the two MMAL buffer callbacks
(`camera_buffer_callback`, `encoder_buffer_callback`), the pipeline setup
(`init_cam` with its component-creation and port-wiring helpers), capture
start (`start_capture`), teardown (`close_cam`) and the two ROS service
handlers (`serv_start_cap`, `serv_stop_cap`).

Driver calls (MMAL component/connection/pool/port primitives) are modelled
as trace actions; their success or failure, and the values the driver
negotiates (buffer counts and sizes), enter through a `Driver` oracle
record.  A dereference of a null handle in the C code is modelled by a
`crashed` flag on the corresponding result structure.
-/

namespace Raspicam

/-- The MMAL ports the node manipulates.  Input ports and the preview port
only appear inside connections and are not tracked individually. -/
inductive PortId where
  | cameraVideo
  | cameraStill
  | splitterOut0
  | splitterOut1
  | encoderOut
deriving DecidableEq, Repr

/-- The three MMAL components (the spec calls them Stages). -/
inductive CompId where
  | camera
  | splitter
  | encoder
deriving DecidableEq, Repr

/-- The two MMAL connections created by `init_cam`. -/
inductive ConnId where
  | splitterConn
  | encoderConn
deriving DecidableEq, Repr

/-- The two buffer pools held in `RASPIVID_STATE`. -/
inductive PoolKind where
  | splitterPool
  | encoderPool
deriving DecidableEq, Repr

/-- Driver-level operations performed by the node, recorded as a trace. -/
inductive Action where
  | createComponent (c : CompId)
  | destroyComponent (c : CompId)
  | disableComponent (c : CompId)
  | createConnection (c : ConnId)
  | destroyConnection (c : ConnId)
  | createPool (k : PoolKind)
  | destroyPool (k : PoolKind)
  | disablePort (p : PortId)
  | enablePort (p : PortId)
  | setCaptureFlag
  | sendBuffer (p : PortId) (b : Nat)
deriving DecidableEq, Repr

/-- An MMAL buffer pool: which output port its size/count were taken from
at `mmal_pool_create` time, the creation parameters, and the free queue
(buffers identified by numbers). -/
structure Pool where
  srcPort : PortId
  bufferNum : Nat
  bufferSize : Nat
  queue : List Nat
deriving DecidableEq, Repr

/-- The driver-side `is_enabled` flags of the tracked ports. -/
structure Ports where
  cameraVideo : Bool
  cameraStill : Bool
  splitterOut0 : Bool
  splitterOut1 : Bool
  encoderOut : Bool
deriving DecidableEq, Repr

def Ports.enabledAt (ps : Ports) : PortId → Bool
  | .cameraVideo => ps.cameraVideo
  | .cameraStill => ps.cameraStill
  | .splitterOut0 => ps.splitterOut0
  | .splitterOut1 => ps.splitterOut1
  | .encoderOut => ps.encoderOut

def Ports.setEnabled (ps : Ports) (p : PortId) (b : Bool) : Ports :=
  match p with
  | .cameraVideo => { ps with cameraVideo := b }
  | .cameraStill => { ps with cameraStill := b }
  | .splitterOut0 => { ps with splitterOut0 := b }
  | .splitterOut1 => { ps with splitterOut1 := b }
  | .encoderOut => { ps with encoderOut := b }

def Ports.allOff : Ports := ⟨false, false, false, false, false⟩

/-- `PORT_USERDATA` (the `pstate` pointer is modelled by passing the state
to the callback explicitly). -/
structure PortUserdata where
  abort : Nat
  frame : Nat
  id : Nat
deriving DecidableEq, Repr

/-- An MMAL buffer header as delivered to a callback: payload bytes and
the two completion flags the code inspects. -/
structure Buffer where
  data : List Nat
  flagFrameEnd : Bool
  flagTransmissionFailed : Bool
deriving DecidableEq, Repr

/-- `sensor_msgs::CompressedImage` fields touched by the code
(header.seq, header.frame_id, header.stamp, format, data). -/
structure CompressedMsg where
  data : List Nat
  seq : Nat
  frameId : String
  stamp : Nat
  format : String
deriving DecidableEq, Repr

/-- `sensor_msgs::Image` fields touched by the code. -/
structure RawMsg where
  seq : Nat
  frameId : String
  stamp : Nat
  isBigendian : Nat
  encoding : String
  height : Nat
  width : Nat
  step : Nat
  data : List Nat
deriving DecidableEq, Repr

/-- `RASPIVID_STATE`, together with the driver-side port enablement flags
and the `userdata` pointers installed on the two callback ports (these
live in MMAL structures in the C code but belong to the same run). -/
structure RState where
  isInit : Nat
  width : Int
  height : Int
  framerate : Int
  quality : Int
  monochrome : Int
  hflip : Int
  vflip : Int
  bitrate : Int
  camera_component : Option Unit
  splitter_component : Option Unit
  encoder_component : Option Unit
  splitter_connection : Option Unit
  encoder_connection : Option Unit
  encoder_pool : Option Pool
  splitter_pool : Option Pool
  ports : Ports
  splitterOutUserdata : Option PortUserdata
  encoderOutUserdata : Option PortUserdata
deriving DecidableEq, Repr

/-- The ROS parameters read by `get_status` (`none` = parameter absent). -/
structure RosParams where
  width : Option Int
  height : Option Int
  quality : Option Int
  framerate : Option Int
  monochrome : Option Int
  bitrate : Option Int
  hflip : Option Int
  vflip : Option Int
  tfPre : Option String
deriving DecidableEq, Repr

/-- Oracle for the outcomes of driver calls and the values the driver
negotiates during setup. -/
structure Driver where
  cameraCreateOk : Bool
  cameraVideoCommitOk : Bool
  cameraStillCommitOk : Bool
  cameraEnableOk : Bool
  splitterCreateOk : Bool
  splitterInCommitOk : Bool
  splitterOutCommitOk : Bool
  encoderCreateOk : Bool
  encoderCommitOk : Bool
  encoderPoolOk : Bool
  encBufNumRecommended : Nat
  encBufNumMin : Nat
  encBufSizeMin : Nat
  connCamSplitCreateOk : Bool
  connCamSplitEnableOk : Bool
  connSplitEncCreateOk : Bool
  connSplitEncEnableOk : Bool
  splitterPool0Ok : Bool
  splitterPool1Ok : Bool
  splitterOut0Size : Nat
  splitterOut1Size : Nat
  enableSplitterOut0Ok : Bool
  enableEncoderOutOk : Bool
  setCaptureOk : Bool
  params : RosParams
deriving DecidableEq, Repr

/-- The state produced by `memset(state, 0, sizeof(RASPIVID_STATE))`. -/
def zeroedState : RState where
  isInit := 0
  width := 0
  height := 0
  framerate := 0
  quality := 0
  monochrome := 0
  hflip := 0
  vflip := 0
  bitrate := 0
  camera_component := none
  splitter_component := none
  encoder_component := none
  splitter_connection := none
  encoder_connection := none
  encoder_pool := none
  splitter_pool := none
  ports := Ports.allOff
  splitterOutUserdata := none
  encoderOutUserdata := none

/-- Result of `get_status`: the refreshed state plus the file-scope
`tf_prefix` global it assigns. -/
structure GetStatusOut where
  state : RState
  tfPre : String
deriving DecidableEq, Repr

/-- `get_status`: zeroes the state, then loads each parameter, replacing
values outside the accepted window by the default; an absent parameter
yields the default.  `bitrate` is only clamped from above; `monochrome`,
`hflip` and `vflip` are normalised to 0/1.  Finally `isInit` is set to 0
(already zero from the memset). -/
def get_status (p : RosParams) : GetStatusOut :=
  let w : Int := match p.width with
    | some t => if 0 < t ∧ t ≤ 1920 then t else 640
    | none => 640
  let h : Int := match p.height with
    | some t => if 0 < t ∧ t ≤ 1080 then t else 480
    | none => 480
  let q : Int := match p.quality with
    | some t => if 0 < t ∧ t ≤ 100 then t else 70
    | none => 70
  let fr : Int := match p.framerate with
    | some t => if 0 < t ∧ t ≤ 90 then t else 30
    | none => 30
  let mono : Int := match p.monochrome with
    | some t => if 0 < t then 1 else 0
    | none => 0
  let br : Int := match p.bitrate with
    | some t => if 25000000 < t then 25000000 else t
    | none => 25000000
  let hf : Int := match p.hflip with
    | some t => if 0 < t then 1 else 0
    | none => 0
  let vf : Int := match p.vflip with
    | some t => if 0 < t then 1 else 0
    | none => 0
  let tfp : String := match p.tfPre with
    | some s => s
    | none => ""
  { state :=
      { zeroedState with
        width := w, height := h, quality := q, framerate := fr,
        monochrome := mono, bitrate := br, hflip := hf, vflip := vf,
        isInit := 0 }
    tfPre := tfp }

/-- Result of one invocation of `encoder_buffer_callback`: the updated
compressed message, userdata, and encoder pool; the finalized frame (the
snapshot of `compressed_msg` at the point where `format`/`seq`/`stamp`
are filled in, before `data.clear()`), the number of
`mmal_buffer_header_release` calls, the buffer resubmitted to the port
(if any), whether `camera_info_pub.publish` ran, the error logs, and
whether a null handle was dereferenced. -/
structure EncCbOut where
  msg : CompressedMsg
  userdata : Option PortUserdata
  pool : Option Pool
  emitted : Option CompressedMsg
  released : Nat
  resubmitted : Option Nat
  publishedInfo : Bool
  logs : List String
  crashed : Bool
deriving DecidableEq, Repr

/-- `encoder_buffer_callback`.  If userdata is attached and the pipeline
is initialized, the buffer bytes are appended to `compressed_msg.data`
(the `bytes_written != buffer->length` abort branch is unreachable since
`bytes_written` is assigned `buffer->length` just before the comparison,
so it is not modelled); a buffer carrying the frame-end or
transmission-failed flag finalizes the message, publishes the camera
info record, increments the frame counter and clears the accumulator.
The buffer is then released unconditionally, and if the port is still
enabled one buffer is drawn from `encoder_pool`'s queue and resubmitted;
`pData->pstate->encoder_pool->queue` is a null dereference when no
userdata is attached or the pool is null. -/
def encoder_buffer_callback (port_enabled : Bool) (userdata : Option PortUserdata)
    (pstate : RState) (msg : CompressedMsg) (tfp : String) (now : Nat)
    (buffer : Buffer) : EncCbOut :=
  let consumed : CompressedMsg × Option PortUserdata × Option CompressedMsg × Bool :=
    match userdata with
    | none => (msg, none, none, false)
    | some u =>
      if pstate.isInit ≠ 0 then
        let msg1 := if buffer.data.length ≠ 0 then
            { msg with data := msg.data ++ buffer.data } else msg
        if buffer.flagFrameEnd || buffer.flagTransmissionFailed then
          let msg2 := { msg1 with
                        seq := u.frame, frameId := tfp ++ "/camera",
                        stamp := now, format := "jpeg" }
          ({ msg2 with data := [] },
           some { u with frame := u.frame + 1, id := 0 }, some msg2, true)
        else (msg1, some u, none, false)
      else (msg, some u, none, false)
  match consumed with
  | (msg1, u1, em, pub) =>
    if port_enabled then
      match userdata with
      | none =>
        { msg := msg1, userdata := u1, pool := pstate.encoder_pool, emitted := em,
          released := 1, resubmitted := none, publishedInfo := pub, logs := [],
          crashed := true }
      | some _ =>
        match pstate.encoder_pool with
        | none =>
          { msg := msg1, userdata := u1, pool := none, emitted := em,
            released := 1, resubmitted := none, publishedInfo := pub, logs := [],
            crashed := true }
        | some pool =>
          match pool.queue with
          | [] =>
            { msg := msg1, userdata := u1, pool := some pool, emitted := em,
              released := 1, resubmitted := none, publishedInfo := pub,
              logs := ["Unable to return a buffer to the encoder port"],
              crashed := false }
          | b :: rest =>
            { msg := msg1, userdata := u1, pool := some { pool with queue := rest },
              emitted := em, released := 1, resubmitted := some b,
              publishedInfo := pub, logs := [], crashed := false }
    else
      { msg := msg1, userdata := u1, pool := pstate.encoder_pool, emitted := em,
        released := 1, resubmitted := none, publishedInfo := pub, logs := [],
        crashed := false }

/-- Result of one invocation of `camera_buffer_callback`. -/
structure CamCbOut where
  rawMsg : RawMsg
  userdata : Option PortUserdata
  pool : Option Pool
  emittedRaw : Option RawMsg
  publishedInfo : Bool
  released : Nat
  resubmitted : Option Nat
  logs : List String
  crashed : Bool
deriving DecidableEq, Repr

/-- `camera_buffer_callback`.  Each non-empty delivered buffer becomes one
raw image (`fillImage` with mono8 step = width or rgb8 step = 3*width,
copying height*step bytes) published immediately together with a camera
info record; otherwise the no-state branch logs.  The buffer is then
released unconditionally; if the port is still enabled one buffer from
`splitter_pool`'s queue is resubmitted (a null dereference if userdata or
the pool is missing), and if the port is disabled the code just logs. -/
def camera_buffer_callback (port_enabled : Bool) (userdata : Option PortUserdata)
    (pstate : RState) (raw : RawMsg) (tfp : String) (now : Nat)
    (buffer : Buffer) : CamCbOut :=
  let consumed : RawMsg × Option PortUserdata × Option RawMsg × Bool × List String :=
    match userdata with
    | none => (raw, none, none, false,
               ["Received a encoder buffer callback with no state"])
    | some u =>
      if pstate.isInit ≠ 0 then
        if buffer.data.length ≠ 0 then
          let h := pstate.height.toNat
          let w := pstate.width.toNat
          let raw1 :=
            if 0 < pstate.monochrome then
              { raw with
                seq := u.frame, frameId := tfp ++ "/camera", stamp := now,
                isBigendian := 0, encoding := "mono8", height := h, width := w,
                step := w, data := buffer.data.take (h * w) }
            else
              { raw with
                seq := u.frame, frameId := tfp ++ "/camera", stamp := now,
                isBigendian := 0, encoding := "rgb8", height := h, width := w,
                step := w * 3, data := buffer.data.take (h * (w * 3)) }
          (raw1, some { u with frame := u.frame + 1, id := 0 }, some raw1, true, [])
        else (raw, some u, none, false, [])
      else (raw, some u, none, false,
            ["Received a encoder buffer callback with no state"])
  match consumed with
  | (raw1, u1, em, pub, lg) =>
    if port_enabled then
      match userdata with
      | none =>
        { rawMsg := raw1, userdata := u1, pool := pstate.splitter_pool,
          emittedRaw := em, publishedInfo := pub, released := 1,
          resubmitted := none, logs := lg, crashed := true }
      | some _ =>
        match pstate.splitter_pool with
        | none =>
          { rawMsg := raw1, userdata := u1, pool := none, emittedRaw := em,
            publishedInfo := pub, released := 1, resubmitted := none,
            logs := lg, crashed := true }
        | some pool =>
          match pool.queue with
          | [] =>
            { rawMsg := raw1, userdata := u1, pool := some pool, emittedRaw := em,
              publishedInfo := pub, released := 1, resubmitted := none,
              logs := lg ++ ["Unable to return a buffer to the encoder port"],
              crashed := false }
          | b :: rest =>
            { rawMsg := raw1, userdata := u1,
              pool := some { pool with queue := rest }, emittedRaw := em,
              publishedInfo := pub, released := 1, resubmitted := some b,
              logs := lg, crashed := false }
    else
      { rawMsg := raw1, userdata := u1, pool := pstate.splitter_pool,
        emittedRaw := em, publishedInfo := pub, released := 1,
        resubmitted := none, logs := lg ++ ["oups"], crashed := false }

/-- Accumulated result of a sequence of encoder-callback deliveries. -/
structure RunOut where
  state : RState
  msg : CompressedMsg
  userdata : Option PortUserdata
  emitted : List CompressedMsg
  crashedAny : Bool
deriving DecidableEq, Repr

/-- Runs `encoder_buffer_callback` over a sequence of delivered buffers,
threading the compressed message, the userdata and the encoder pool, and
collecting the finalized frames in delivery order. -/
def runEncoderCallbacks (port_enabled : Bool) (tfp : String) (now : Nat) :
    RState → CompressedMsg → Option PortUserdata → List Buffer → RunOut
  | ps, msg, ud, [] => ⟨ps, msg, ud, [], false⟩
  | ps, msg, ud, b :: rest =>
    let r := encoder_buffer_callback port_enabled ud ps msg tfp now b
    let out := runEncoderCallbacks port_enabled tfp now
      { ps with encoder_pool := r.pool } r.msg r.userdata rest
    ⟨out.state, out.msg, out.userdata, r.emitted.toList ++ out.emitted,
     r.crashed || out.crashedAny⟩

/-- Concatenation of the payload bytes of a buffer sequence. -/
def concatBytes (bs : List Buffer) : List Nat :=
  bs.foldr (fun b acc => b.data ++ acc) []

/-- `create_camera_component`: create the component, commit the video and
still port formats, enable the component; any failure runs the `error:`
path, which destroys the partially-created component and returns 0
(modelled as `false`).  On success the handle is stored in the state. -/
def create_camera_component (d : Driver) (s : RState) :
    RState × List Action × Bool :=
  if d.cameraCreateOk = false then (s, [], false)
  else if d.cameraVideoCommitOk = false then
    (s, [.createComponent .camera, .destroyComponent .camera], false)
  else if d.cameraStillCommitOk = false then
    (s, [.createComponent .camera, .destroyComponent .camera], false)
  else if d.cameraEnableOk = false then
    (s, [.createComponent .camera, .destroyComponent .camera], false)
  else ({ s with camera_component := some () }, [.createComponent .camera], true)

/-- `create_splitter_component`: create, commit the input format and the
output formats (every output port first gets `buffer_num = 3` and a copy
of the input format); a failure destroys the component and returns -1
(modelled as `false`). -/
def create_splitter_component (d : Driver) (s : RState) :
    RState × List Action × Bool :=
  if d.splitterCreateOk = false then (s, [], false)
  else if d.splitterInCommitOk = false then
    (s, [.createComponent .splitter, .destroyComponent .splitter], false)
  else if d.splitterOutCommitOk = false then
    (s, [.createComponent .splitter, .destroyComponent .splitter], false)
  else
    ({ s with splitter_component := some () }, [.createComponent .splitter], true)

/-- `create_encoder_component`: create, set the output buffer size to
256 KiB (clamped up to the driver minimum) and the buffer count to the
driver-recommended value (clamped up to the minimum), commit the output
format; then create the output-port pool — a pool-creation failure only
logs and leaves `encoder_pool` null, the function still succeeds.  (The
`mmal_component_enable(encoder)` call is commented out in the source.) -/
def create_encoder_component (d : Driver) (s : RState) :
    RState × List Action × Bool :=
  if d.encoderCreateOk = false then (s, [], false)
  else if d.encoderCommitOk = false then
    (s, [.createComponent .encoder, .destroyComponent .encoder], false)
  else
    let num := if d.encBufNumRecommended < d.encBufNumMin then d.encBufNumMin
               else d.encBufNumRecommended
    let size := if 262144 < d.encBufSizeMin then d.encBufSizeMin else 262144
    if d.encoderPoolOk then
      ({ s with encoder_component := some (),
                encoder_pool := some ⟨.encoderOut, num, size, List.range num⟩ },
       [.createComponent .encoder, .createPool .encoderPool], true)
    else
      ({ s with encoder_component := some (), encoder_pool := none },
       [.createComponent .encoder], true)

/-- `connect_ports`: `mmal_connection_create` assigns the connection
pointer on success; `mmal_connection_enable` destroys the connection on
failure (the pointer stays assigned, dangling).  Returns the trace, the
overall status, whether the pointer was assigned, and whether the
connection ended up enabled (with tunnelling this also enables the
underlying ports). -/
def connect_ports (c : ConnId) (createOk enableOk : Bool) :
    List Action × Bool × Bool :=
  if createOk = false then ([], false, false)
  else if enableOk then ([.createConnection c], true, true)
  else ([.createConnection c, .destroyConnection c], false, true)

/-- `splitter_output_init`: `state->splitter_pool =
mmal_pool_create(port->buffer_num, port->buffer_size)` — each call
overwrites the single `splitter_pool` field.  The splitter output ports
have `buffer_num = 3` (set in `create_splitter_component`); the buffer
size is driver-negotiated.  Returns -1 (`false`) when creation fails, in
which case the field is assigned null. -/
def splitter_output_init (ok : Bool) (port : PortId) (size : Nat) (s : RState) :
    RState × List Action × Bool :=
  if ok then
    ({ s with splitter_pool := some ⟨port, 3, size, List.range 3⟩ },
     [.createPool .splitterPool], true)
  else ({ s with splitter_pool := none }, [], false)

/-- Result of `init_cam`. -/
structure InitOut where
  state : RState
  tfPre : String
  trace : List Action
  ret : Nat
deriving DecidableEq, Repr

/-- The wiring phase of `init_cam` (everything after the three components
have been created successfully): connects camera-video to splitter-input
and splitter-output-1 to encoder-input — the status of the first
`connect_ports` call is overwritten by the second, and the joint check
returns 1 with no cleanup — calls `splitter_output_init` for splitter
outputs 0 and 1 ignoring both results (the second call overwrites
`splitter_pool`), attaches fresh userdata and enables the two callback
ports (returning 1 with no cleanup on failure), and finally sets
`isInit = 1` and returns 0.  `s3` is the state after component creation
and `t3` the trace so far. -/
def init_cam_wiring (d : Driver) (s3 : RState) (tfp : String)
    (t3 : List Action) : InitOut :=
  let k1 := connect_ports .splitterConn d.connCamSplitCreateOk
    d.connCamSplitEnableOk
  let s4 := if k1.2.2 then { s3 with splitter_connection := some () }
            else s3
  let s4 := if k1.2.1 then
              { s4 with ports := s4.ports.setEnabled .cameraVideo true }
            else s4
  let k2 := connect_ports .encoderConn d.connSplitEncCreateOk
    d.connSplitEncEnableOk
  let s5 := if k2.2.2 then { s4 with encoder_connection := some () }
            else s4
  let s5 := if k2.2.1 then
              { s5 with ports := s5.ports.setEnabled .splitterOut1 true }
            else s5
  let t5 := t3 ++ k1.1 ++ k2.1
  if k2.2.1 = false then ⟨s5, tfp, t5, 1⟩
  else
    let p0 := splitter_output_init d.splitterPool0Ok .splitterOut0
      d.splitterOut0Size s5
    let p1 := splitter_output_init d.splitterPool1Ok .splitterOut1
      d.splitterOut1Size p0.1
    let t7 := t5 ++ p0.2.1 ++ p1.2.1
    let s8 := { p1.1 with splitterOutUserdata := some ⟨0, 0, 0⟩ }
    if d.enableSplitterOut0Ok = false then ⟨s8, tfp, t7, 1⟩
    else
      let s9 := { s8 with
                  ports := s8.ports.setEnabled .splitterOut0 true,
                  encoderOutUserdata := some ⟨0, 0, 0⟩ }
      if d.enableEncoderOutOk = false then
        ⟨s9, tfp, t7 ++ [.enablePort .splitterOut0], 1⟩
      else
        ⟨{ s9 with
           ports := s9.ports.setEnabled .encoderOut true,
           isInit := 1 }, tfp,
         t7 ++ [.enablePort .splitterOut0, .enablePort .encoderOut], 0⟩

/-- `init_cam`: reloads the configuration with `get_status` (which zeroes
the whole `RASPIVID_STATE`), creates the camera, splitter and encoder
components (with rollback of previously created components in this
phase, mirroring the three early-return blocks of the source), then runs
the wiring phase `init_cam_wiring`. -/
def init_cam (d : Driver) (_s : RState) : InitOut :=
  let g := get_status d.params
  let c1 := create_camera_component d g.state
  if c1.2.2 = false then ⟨c1.1, g.tfPre, c1.2.1, 1⟩
  else
    let c2 := create_splitter_component d c1.1
    if c2.2.2 = false then
      ⟨{ c2.1 with camera_component := none }, g.tfPre,
       c1.2.1 ++ c2.2.1 ++ [.destroyComponent .camera], 1⟩
    else
      let c3 := create_encoder_component d c2.1
      if c3.2.2 = false then
        ⟨{ c3.1 with camera_component := none, splitter_component := none },
         g.tfPre,
         c1.2.1 ++ c2.2.1 ++ c3.2.1 ++
           [.destroyComponent .camera, .destroyComponent .splitter], 1⟩
      else init_cam_wiring d c3.1 g.tfPre (c1.2.1 ++ c2.2.1 ++ c3.2.1)

/-- Result of `start_capture`. -/
structure StartOut where
  state : RState
  trace : List Action
  ret : Nat
  crashed : Bool
deriving DecidableEq, Repr

/-- `start_capture`: runs `init_cam` only when `isInit` is 0 (its return
value is ignored), dereferences the camera and splitter component
handles, sets the capture flag on the camera video port (returning 1 on
failure), then drains every buffer of `splitter_pool` to splitter output
0 and every buffer of `encoder_pool` to the encoder output port, and
returns 0. -/
def start_capture (d : Driver) (s : RState) : StartOut :=
  let first : RState × List Action :=
    if s.isInit = 0 then
      let r := init_cam d s
      (r.state, r.trace)
    else (s, [])
  match first with
  | (s0, t0) =>
    if s0.camera_component = none ∨ s0.splitter_component = none then
      ⟨s0, t0, 1, true⟩
    else if d.setCaptureOk = false then ⟨s0, t0 ++ [.setCaptureFlag], 1, false⟩
    else
      match s0.splitter_pool with
      | none => ⟨s0, t0 ++ [.setCaptureFlag], 1, true⟩
      | some sp =>
        let sends1 := sp.queue.map (Action.sendBuffer .splitterOut0)
        let s1 := { s0 with splitter_pool := some { sp with queue := [] } }
        if s1.encoder_component = none then
          ⟨s1, t0 ++ [.setCaptureFlag] ++ sends1, 1, true⟩
        else
          match s1.encoder_pool with
          | none => ⟨s1, t0 ++ [.setCaptureFlag] ++ sends1, 1, true⟩
          | some ep =>
            let sends2 := ep.queue.map (Action.sendBuffer .encoderOut)
            ⟨{ s1 with encoder_pool := some { ep with queue := [] } },
             t0 ++ [.setCaptureFlag] ++ sends1 ++ sends2, 0, false⟩

/-- Result of `close_cam`. -/
structure CloseOut where
  state : RState
  trace : List Action
  ret : Nat
  crashed : Bool
deriving DecidableEq, Repr

/-- `close_cam`: returns 1 immediately when `isInit` is 0.  Otherwise it
sets `isInit = 0` and tears down: disables the camera still and video
ports (each only if enabled), unconditionally disables the encoder
output and both splitter output ports, destroys the encoder and splitter
connections, disables the three components, destroys the splitter and
encoder pools (if non-null), destroys the three components, and returns
0.  The component/connection/pool fields of the state are not nulled
(only local copies are); dereferencing a null component or connection
handle is modelled as a crash. -/
def close_cam (s : RState) : CloseOut :=
  if s.isInit = 0 then ⟨s, [], 1, false⟩
  else if s.camera_component = none ∨ s.splitter_component = none ∨
      s.encoder_component = none ∨ s.encoder_connection = none ∨
      s.splitter_connection = none then
    ⟨{ s with isInit := 0 }, [], 1, true⟩
  else
    let t :=
      (if s.ports.cameraStill then [Action.disablePort .cameraStill] else []) ++
      (if s.ports.cameraVideo then [Action.disablePort .cameraVideo] else []) ++
      [Action.disablePort .encoderOut, Action.disablePort .splitterOut0,
       Action.disablePort .splitterOut1,
       Action.destroyConnection .encoderConn,
       Action.destroyConnection .splitterConn,
       Action.disableComponent .encoder, Action.disableComponent .camera,
       Action.disableComponent .splitter] ++
      (if s.splitter_pool.isSome then [Action.destroyPool .splitterPool]
       else []) ++
      (if s.encoder_pool.isSome then [Action.destroyPool .encoderPool]
       else []) ++
      [Action.destroyComponent .encoder, Action.destroyComponent .camera,
       Action.destroyComponent .splitter]
    ⟨{ s with isInit := 0, ports := Ports.allOff }, t, 0, false⟩

/-- `serv_start_cap`: runs `start_capture` on the global state and always
returns `true` to the service caller. -/
def serv_start_cap (d : Driver) (s : RState) : RState × Bool :=
  ((start_capture d s).state, true)

/-- `serv_stop_cap`: runs `close_cam` on the global state and always
returns `true` to the service caller. -/
def serv_stop_cap (s : RState) : RState × Bool :=
  ((close_cam s).state, true)

/-! Trace-analysis helpers. -/

/-- Is the action a port disable? -/
def Action.isPortDisable : Action → Bool
  | .disablePort _ => true
  | _ => false

/-- Is the action a destruction of a connection, pool or component? -/
def Action.isDestroy : Action → Bool
  | .destroyConnection _ => true
  | .destroyPool _ => true
  | .destroyComponent _ => true
  | _ => false

/-- Is the action a creation of a component, connection or pool? -/
def Action.isCreate : Action → Bool
  | .createComponent _ => true
  | .createConnection _ => true
  | .createPool _ => true
  | _ => false

/-- Is the action a buffer submission to a port? -/
def Action.isSend : Action → Bool
  | .sendBuffer _ _ => true
  | _ => false

/-- The ports an object being destroyed serves: the source port of a
connection, the output port fed by a pool, the output ports owned by a
component. -/
def Action.servedPorts : Action → List PortId
  | .destroyConnection .splitterConn => [.cameraVideo]
  | .destroyConnection .encoderConn => [.splitterOut1]
  | .destroyPool .splitterPool => [.splitterOut0]
  | .destroyPool .encoderPool => [.encoderOut]
  | .destroyComponent .camera => [.cameraVideo, .cameraStill]
  | .destroyComponent .splitter => [.splitterOut0, .splitterOut1]
  | .destroyComponent .encoder => [.encoderOut]
  | _ => []

/-- Effect of an action on the port-enabled flags. -/
def applyAction (ps : Ports) : Action → Ports
  | .disablePort p => ps.setEnabled p false
  | .enablePort p => ps.setEnabled p true
  | _ => ps

/-- Port-enabled flags after running a trace from an initial assignment. -/
def portsAfter (p0 : Ports) (t : List Action) : Ports :=
  t.foldl applyAction p0

/-- Every port-disable in the trace comes before every destroy. -/
def portDisablesBeforeDestroys (t : List Action) : Prop :=
  ∀ i j : Fin t.length,
    (t.get i).isPortDisable = true → (t.get j).isDestroy = true → (i : Nat) < j

instance (t : List Action) : Decidable (portDisablesBeforeDestroys t) := by
  unfold portDisablesBeforeDestroys; infer_instance

/-- At each destroy in the trace, every port the destroyed object serves
is already disabled. -/
def noDestroyWhileEnabled (p0 : Ports) (t : List Action) : Prop :=
  ∀ i : Fin t.length, ∀ p ∈ (t.get i).servedPorts,
    (portsAfter p0 (t.take i)).enabledAt p = false

instance (p0 : Ports) (t : List Action) :
    Decidable (noDestroyWhileEnabled p0 t) := by
  unfold noDestroyWhileEnabled; infer_instance

/-- A fully wired pipeline state, as produced by a successful `init_cam`:
initialized flag set and every handle populated. -/
def Initialized (s : RState) : Prop :=
  s.isInit ≠ 0 ∧ s.camera_component = some () ∧ s.splitter_component = some () ∧
  s.encoder_component = some () ∧ s.splitter_connection = some () ∧
  s.encoder_connection = some () ∧ s.splitter_pool.isSome = true ∧
  s.encoder_pool.isSome = true

instance (s : RState) : Decidable (Initialized s) := by
  unfold Initialized; infer_instance

/-- All driver calls of a setup/start attempt succeed. -/
def Driver.AllOk (d : Driver) : Prop :=
  d.cameraCreateOk = true ∧ d.cameraVideoCommitOk = true ∧
  d.cameraStillCommitOk = true ∧ d.cameraEnableOk = true ∧
  d.splitterCreateOk = true ∧ d.splitterInCommitOk = true ∧
  d.splitterOutCommitOk = true ∧ d.encoderCreateOk = true ∧
  d.encoderCommitOk = true ∧ d.encoderPoolOk = true ∧
  d.connCamSplitCreateOk = true ∧ d.connCamSplitEnableOk = true ∧
  d.connSplitEncCreateOk = true ∧ d.connSplitEncEnableOk = true ∧
  d.splitterPool0Ok = true ∧ d.splitterPool1Ok = true ∧
  d.enableSplitterOut0Ok = true ∧ d.enableEncoderOutOk = true ∧
  d.setCaptureOk = true

instance (d : Driver) : Decidable d.AllOk := by
  unfold Driver.AllOk; infer_instance

/-- The component-creation calls of a setup attempt succeed (the wiring
calls are left free). -/
def Driver.ComponentsOk (d : Driver) : Prop :=
  d.cameraCreateOk = true ∧ d.cameraVideoCommitOk = true ∧
  d.cameraStillCommitOk = true ∧ d.cameraEnableOk = true ∧
  d.splitterCreateOk = true ∧ d.splitterInCommitOk = true ∧
  d.splitterOutCommitOk = true ∧ d.encoderCreateOk = true ∧
  d.encoderCommitOk = true

instance (d : Driver) : Decidable d.ComponentsOk := by
  unfold Driver.ComponentsOk; infer_instance

/-! Concrete fixtures used by witnesses and counterexamples. -/

/-- A parameter assignment supplying every option at its default. -/
def paramsW : RosParams where
  width := some 640
  height := some 480
  quality := some 70
  framerate := some 30
  monochrome := some 0
  bitrate := some 25000000
  hflip := some 0
  vflip := some 0
  tfPre := some ""

/-- A driver for which every call succeeds. -/
def driverW : Driver where
  cameraCreateOk := true
  cameraVideoCommitOk := true
  cameraStillCommitOk := true
  cameraEnableOk := true
  splitterCreateOk := true
  splitterInCommitOk := true
  splitterOutCommitOk := true
  encoderCreateOk := true
  encoderCommitOk := true
  encoderPoolOk := true
  encBufNumRecommended := 3
  encBufNumMin := 2
  encBufSizeMin := 4096
  connCamSplitCreateOk := true
  connCamSplitEnableOk := true
  connSplitEncCreateOk := true
  connSplitEncEnableOk := true
  splitterPool0Ok := true
  splitterPool1Ok := true
  splitterOut0Size := 921600
  splitterOut1Size := 921600
  enableSplitterOut0Ok := true
  enableEncoderOutOk := true
  setCaptureOk := true
  params := paramsW

/-- A driver for which the splitter-to-encoder connection creation
fails and everything else succeeds. -/
def driverConnFail : Driver := { driverW with connSplitEncCreateOk := false }

/-- A fully wired, initialized pipeline state with three free buffers in
each pool, as after a successful `init_cam`. -/
def stateCb : RState :=
  { zeroedState with
    isInit := 1
    camera_component := some ()
    splitter_component := some ()
    encoder_component := some ()
    splitter_connection := some ()
    encoder_connection := some ()
    encoder_pool := some ⟨.encoderOut, 3, 262144, [0, 1, 2]⟩
    splitter_pool := some ⟨.splitterOut1, 3, 921600, [0, 1, 2]⟩
    ports := ⟨true, false, true, true, true⟩
    splitterOutUserdata := some ⟨0, 0, 0⟩
    encoderOutUserdata := some ⟨0, 0, 0⟩ }

/-- An empty compressed message (fresh accumulator). -/
def msgCb : CompressedMsg := ⟨[], 0, "", 0, ""⟩

/-- A blank raw-image message. -/
def rawCb : RawMsg := ⟨0, "", 0, 0, "", 0, 0, 0, []⟩

/-! Helper lemmas. -/

@[simp] theorem concatBytes_nil : concatBytes [] = [] := rfl

@[simp] theorem concatBytes_cons (b : Buffer) (bs : List Buffer) :
    concatBytes (b :: bs) = b.data ++ concatBytes bs := rfl

/-- One encoder-callback delivery of an unflagged buffer appends the
buffer bytes to the accumulator and changes neither the userdata nor the
emission state. -/
theorem enc_cb_step_no_flag (en : Bool) (u : PortUserdata) (ps : RState)
    (msg : CompressedMsg) (tfp : String) (now : Nat) (b : Buffer)
    (h1 : b.flagFrameEnd = false) (h2 : b.flagTransmissionFailed = false)
    (hinit : ps.isInit ≠ 0) (hpool : ps.encoder_pool.isSome = true) :
    (encoder_buffer_callback en (some u) ps msg tfp now b).emitted = none ∧
    (encoder_buffer_callback en (some u) ps msg tfp now b).msg.data
      = msg.data ++ b.data ∧
    (encoder_buffer_callback en (some u) ps msg tfp now b).userdata = some u ∧
    (encoder_buffer_callback en (some u) ps msg tfp now b).crashed = false ∧
    (encoder_buffer_callback en (some u) ps msg tfp now b).pool.isSome
      = true := by
  rcases hp : ps.encoder_pool with _ | pool
  · rw [hp] at hpool; simp at hpool
  cases en <;> rcases hq : pool.queue with _ | ⟨x, xs⟩ <;>
    simp [encoder_buffer_callback, hp, hq, h1, h2, hinit] <;>
    rcases hd : b.data with _ | ⟨y, ys⟩ <;> simp [hd]

/-- One encoder-callback delivery of a flagged buffer finalizes the
frame: it emits the accumulated bytes plus the buffer bytes, clears the
accumulator, increments the frame counter and leaves `abort` alone. -/
theorem enc_cb_step_flag (en : Bool) (u : PortUserdata) (ps : RState)
    (msg : CompressedMsg) (tfp : String) (now : Nat) (b : Buffer)
    (h : b.flagFrameEnd = true ∨ b.flagTransmissionFailed = true)
    (hinit : ps.isInit ≠ 0) (hpool : ps.encoder_pool.isSome = true) :
    (encoder_buffer_callback en (some u) ps msg tfp now b).emitted
      = some ⟨msg.data ++ b.data, u.frame, tfp ++ "/camera", now, "jpeg"⟩ ∧
    (encoder_buffer_callback en (some u) ps msg tfp now b).msg.data = [] ∧
    (encoder_buffer_callback en (some u) ps msg tfp now b).userdata
      = some ⟨u.abort, u.frame + 1, 0⟩ ∧
    (encoder_buffer_callback en (some u) ps msg tfp now b).crashed = false ∧
    (encoder_buffer_callback en (some u) ps msg tfp now b).pool.isSome
      = true := by
  rcases hp : ps.encoder_pool with _ | pool
  · rw [hp] at hpool; simp at hpool
  have hflag : (b.flagFrameEnd || b.flagTransmissionFailed) = true := by
    rcases h with h | h <;> simp [h]
  cases en <;> rcases hq : pool.queue with _ | ⟨x, xs⟩ <;>
    simp [encoder_buffer_callback, hp, hq, hflag, hinit] <;>
    rcases hd : b.data with _ | ⟨y, ys⟩ <;> simp [hd]

/-- Running the encoder callback over unflagged fragments followed by one
flagged fragment emits exactly one frame carrying the accumulated bytes
followed by all fragment bytes, clears the accumulator, and bumps the
frame counter once. -/
theorem runEnc_assembles (en : Bool) (tfp : String) (now : Nat)
    (frags : List Buffer) (last : Buffer)
    (hf : ∀ b ∈ frags,
      b.flagFrameEnd = false ∧ b.flagTransmissionFailed = false)
    (hl : last.flagFrameEnd = true ∨ last.flagTransmissionFailed = true) :
    ∀ (ps : RState) (msg : CompressedMsg) (u : PortUserdata),
      ps.isInit ≠ 0 → ps.encoder_pool.isSome = true →
      (runEncoderCallbacks en tfp now ps msg (some u)
          (frags ++ [last])).emitted
        = [⟨msg.data ++ concatBytes (frags ++ [last]), u.frame,
            tfp ++ "/camera", now, "jpeg"⟩] ∧
      (runEncoderCallbacks en tfp now ps msg (some u)
        (frags ++ [last])).msg.data = [] ∧
      (runEncoderCallbacks en tfp now ps msg (some u)
          (frags ++ [last])).userdata
        = some ⟨u.abort, u.frame + 1, 0⟩ ∧
      (runEncoderCallbacks en tfp now ps msg (some u)
        (frags ++ [last])).crashedAny = false := by
  induction frags with
  | nil =>
    intro ps msg u hinit hpool
    obtain ⟨e1, e2, e3, e4, e5⟩ :=
      enc_cb_step_flag en u ps msg tfp now last hl hinit hpool
    simp [runEncoderCallbacks, e1, e2, e3, e4]
  | cons b bs ih =>
    intro ps msg u hinit hpool
    obtain ⟨hb1, hb2⟩ := hf b (List.mem_cons_self b bs)
    obtain ⟨e1, e2, e3, e4, e5⟩ :=
      enc_cb_step_no_flag en u ps msg tfp now b hb1 hb2 hinit hpool
    have hf' : ∀ x ∈ bs,
        x.flagFrameEnd = false ∧ x.flagTransmissionFailed = false :=
      fun x hx => hf x (List.mem_cons_of_mem b hx)
    have ihx := ih hf'
      { ps with encoder_pool :=
          (encoder_buffer_callback en (some u) ps msg tfp now b).pool }
      (encoder_buffer_callback en (some u) ps msg tfp now b).msg u
      (by simpa using hinit) (by simpa using e5)
    obtain ⟨i1, i2, i3, i4⟩ := ihx
    simp only [runEncoderCallbacks, e1, e3, e4, Option.toList_none,
      List.nil_append, Bool.false_or, List.append_eq]
    rw [i1, i2, i3, i4, e2]
    simp [List.append_assoc]

/-- If the second connection creation or enablement fails, or enabling
either callback port fails, the wiring phase returns 1 and leaves the
component handles exactly as it received them. -/
theorem wiring_fail_keeps_handles (d : Driver) (s3 : RState) (tfp : String)
    (t3 : List Action)
    (hfail : d.connSplitEncCreateOk = false ∨
       (d.connSplitEncCreateOk = true ∧ d.connSplitEncEnableOk = false) ∨
       (d.connSplitEncCreateOk = true ∧ d.connSplitEncEnableOk = true ∧
        d.enableSplitterOut0Ok = false) ∨
       (d.connSplitEncCreateOk = true ∧ d.connSplitEncEnableOk = true ∧
        d.enableSplitterOut0Ok = true ∧ d.enableEncoderOutOk = false)) :
    (init_cam_wiring d s3 tfp t3).ret = 1 ∧
    (init_cam_wiring d s3 tfp t3).state.isInit = s3.isInit ∧
    (init_cam_wiring d s3 tfp t3).state.camera_component
      = s3.camera_component ∧
    (init_cam_wiring d s3 tfp t3).state.splitter_component
      = s3.splitter_component ∧
    (init_cam_wiring d s3 tfp t3).state.encoder_component
      = s3.encoder_component := by
  rcases hfail with h | ⟨ha, hb⟩ | ⟨ha, hb, hc⟩ | ⟨ha, hb, hc, hd⟩
  · cases hk1 : d.connCamSplitCreateOk <;>
      cases hk2 : d.connCamSplitEnableOk <;>
      simp [init_cam_wiring, connect_ports, splitter_output_init,
        Ports.setEnabled, hk1, hk2, h]
  · cases hk1 : d.connCamSplitCreateOk <;>
      cases hk2 : d.connCamSplitEnableOk <;>
      simp [init_cam_wiring, connect_ports, splitter_output_init,
        Ports.setEnabled, hk1, hk2, ha, hb]
  · cases hk1 : d.connCamSplitCreateOk <;>
      cases hk2 : d.connCamSplitEnableOk <;>
      cases hp0 : d.splitterPool0Ok <;> cases hp1 : d.splitterPool1Ok <;>
      simp [init_cam_wiring, connect_ports, splitter_output_init,
        Ports.setEnabled, hk1, hk2, hp0, hp1, ha, hb, hc]
  · cases hk1 : d.connCamSplitCreateOk <;>
      cases hk2 : d.connCamSplitEnableOk <;>
      cases hp0 : d.splitterPool0Ok <;> cases hp1 : d.splitterPool1Ok <;>
      simp [init_cam_wiring, connect_ports, splitter_output_init,
        Ports.setEnabled, hk1, hk2, hp0, hp1, ha, hb, hc, hd]

/-- A failure of the second `splitter_output_init` call is not checked:
wiring completes with return value 0, `isInit = 1` and a null
`splitter_pool`. -/
theorem wiring_pool_failure_ignored (d : Driver) (s3 : RState) (tfp : String)
    (t3 : List Action)
    (h1 : d.connSplitEncCreateOk = true) (h2 : d.connSplitEncEnableOk = true)
    (h3 : d.enableSplitterOut0Ok = true) (h4 : d.enableEncoderOutOk = true)
    (h5 : d.splitterPool1Ok = false) :
    (init_cam_wiring d s3 tfp t3).ret = 0 ∧
    (init_cam_wiring d s3 tfp t3).state.isInit = 1 ∧
    (init_cam_wiring d s3 tfp t3).state.splitter_pool = none := by
  cases hk1 : d.connCamSplitCreateOk <;> cases hk2 : d.connCamSplitEnableOk <;>
    cases hp0 : d.splitterPool0Ok <;>
    simp [init_cam_wiring, connect_ports, splitter_output_init,
      Ports.setEnabled, hk1, hk2, hp0, h1, h2, h3, h4, h5]

/-- A failure creating the first connection alone is masked because its
status is overwritten by the second `connect_ports` call: wiring
completes with return value 0 and the connection pointer unassigned. -/
theorem wiring_first_conn_failure_ignored (d : Driver) (s3 : RState)
    (tfp : String) (t3 : List Action)
    (h0 : d.connCamSplitCreateOk = false)
    (h1 : d.connSplitEncCreateOk = true) (h2 : d.connSplitEncEnableOk = true)
    (h3 : d.enableSplitterOut0Ok = true) (h4 : d.enableEncoderOutOk = true) :
    (init_cam_wiring d s3 tfp t3).ret = 0 ∧
    (init_cam_wiring d s3 tfp t3).state.isInit = 1 ∧
    (init_cam_wiring d s3 tfp t3).state.splitter_connection
      = s3.splitter_connection := by
  cases hp0 : d.splitterPool0Ok <;> cases hp1 : d.splitterPool1Ok <;>
    simp [init_cam_wiring, connect_ports, splitter_output_init,
      Ports.setEnabled, hp0, hp1, h0, h1, h2, h3, h4]

/-- When the three component-creation steps succeed, `init_cam` reaches
the wiring phase with all three component handles set, `isInit = 0` and
no connection assigned. -/
theorem init_cam_reaches_wiring (d : Driver) (s : RState)
    (h : d.ComponentsOk) :
    ∃ (s3 : RState) (t3 : List Action),
      init_cam d s = init_cam_wiring d s3 (get_status d.params).tfPre t3 ∧
      s3.isInit = 0 ∧ s3.camera_component = some () ∧
      s3.splitter_component = some () ∧ s3.encoder_component = some () ∧
      s3.splitter_connection = none := by
  obtain ⟨c1, c2, c3, c4, c5, c6, c7, c8, c9⟩ := h
  cases hep : d.encoderPoolOk
  · refine ⟨{ (get_status d.params).state with
        camera_component := some (), splitter_component := some (),
        encoder_component := some (), encoder_pool := none },
      [.createComponent .camera, .createComponent .splitter,
       .createComponent .encoder], ?_, rfl, rfl, rfl, rfl, rfl⟩
    simp [init_cam, create_camera_component, create_splitter_component,
      create_encoder_component, c1, c2, c3, c4, c5, c6, c7, c8, c9, hep]
  · refine ⟨{ (get_status d.params).state with
        camera_component := some (), splitter_component := some (),
        encoder_component := some (),
        encoder_pool := some ⟨.encoderOut,
          (if d.encBufNumRecommended < d.encBufNumMin then d.encBufNumMin
           else d.encBufNumRecommended),
          (if 262144 < d.encBufSizeMin then d.encBufSizeMin else 262144),
          List.range (if d.encBufNumRecommended < d.encBufNumMin
            then d.encBufNumMin else d.encBufNumRecommended)⟩ },
      [.createComponent .camera, .createComponent .splitter,
       .createComponent .encoder, .createPool .encoderPool], ?_, rfl, rfl,
      rfl, rfl, rfl⟩
    simp [init_cam, create_camera_component, create_splitter_component,
      create_encoder_component, c1, c2, c3, c4, c5, c6, c7, c8, c9, hep]

/-! Claim theorems. -/

/-- C1: Every buffer delivered to either callback is released back to the
driver exactly once, unconditionally — also with no userdata attached or
an uninitialized pipeline.  With userdata attached and the pool handle
present, a replacement buffer is resubmitted to the port if and only if
the port is still enabled and the pool free queue is non-empty; a
disabled port never triggers a resubmission; an empty pool only skips
the resubmission and logs, without crashing and without touching the
abort flag. -/
theorem callback_release_once_resubmit_iff
    (en : Bool) (ud : Option PortUserdata) (ps : RState)
    (msg : CompressedMsg) (raw : RawMsg) (tfp : String) (now : Nat)
    (buf : Buffer) :
    (encoder_buffer_callback en ud ps msg tfp now buf).released = 1 ∧
    (camera_buffer_callback en ud ps raw tfp now buf).released = 1 ∧
    (∀ u pool, ud = some u → ps.encoder_pool = some pool →
      ((encoder_buffer_callback en ud ps msg tfp now buf).resubmitted ≠ none ↔
        (en = true ∧ pool.queue ≠ [])) ∧
      (encoder_buffer_callback en ud ps msg tfp now buf).crashed = false ∧
      (encoder_buffer_callback en ud ps msg tfp now buf).userdata.map
        PortUserdata.abort = some u.abort ∧
      (en = true → pool.queue = [] →
        (encoder_buffer_callback en ud ps msg tfp now buf).logs ≠ [])) ∧
    (∀ u pool, ud = some u → ps.splitter_pool = some pool →
      ((camera_buffer_callback en ud ps raw tfp now buf).resubmitted ≠ none ↔
        (en = true ∧ pool.queue ≠ [])) ∧
      (camera_buffer_callback en ud ps raw tfp now buf).crashed = false ∧
      (camera_buffer_callback en ud ps raw tfp now buf).userdata.map
        PortUserdata.abort = some u.abort ∧
      (en = true → pool.queue = [] →
        (camera_buffer_callback en ud ps raw tfp now buf).logs ≠ [])) ∧
    (en = false →
      (encoder_buffer_callback en ud ps msg tfp now buf).resubmitted = none ∧
      (camera_buffer_callback en ud ps raw tfp now buf).resubmitted
        = none) := by
  refine ⟨?_, ?_, ?_, ?_, ?_⟩
  · simp only [encoder_buffer_callback]
    repeat' split
    all_goals rfl
  · simp only [camera_buffer_callback]
    repeat' split
    all_goals rfl
  · rintro u pool rfl hp
    cases en <;>
      rcases hq : pool.queue with _ | ⟨b, rest⟩ <;>
      simp [encoder_buffer_callback, hp, hq] <;> split_ifs <;> simp
  · rintro u pool rfl hp
    cases en <;>
      rcases hq : pool.queue with _ | ⟨b, rest⟩ <;>
      simp [camera_buffer_callback, hp, hq] <;> split_ifs <;> simp
  · rintro rfl
    constructor
    · simp only [encoder_buffer_callback]
      repeat' split
      all_goals first | rfl | simp_all
    · simp only [camera_buffer_callback]
      repeat' split
      all_goals first | rfl | simp_all

/-- Witness for C1 at a concrete initialized state with a three-buffer
pool. -/
theorem callback_release_once_resubmit_iff_witness :
    (encoder_buffer_callback true (some ⟨0, 0, 0⟩) stateCb msgCb "" 0
      ⟨[1], false, false⟩).released = 1 ∧
    (camera_buffer_callback true (some ⟨0, 0, 0⟩) stateCb rawCb "" 0
      ⟨[1], false, false⟩).released = 1 ∧
    ((encoder_buffer_callback true (some ⟨0, 0, 0⟩) stateCb msgCb "" 0
        ⟨[1], false, false⟩).resubmitted ≠ none ↔
      (true = true ∧ ([0, 1, 2] : List Nat) ≠ [])) := by
  have h := callback_release_once_resubmit_iff true (some ⟨0, 0, 0⟩) stateCb
    msgCb rawCb "" 0 ⟨[1], false, false⟩
  exact ⟨h.1, h.2.1,
    (h.2.2.1 ⟨0, 0, 0⟩ ⟨.encoderOut, 3, 262144, [0, 1, 2]⟩ rfl rfl).1⟩

/-- C2: On an initialized pipeline, `close_cam` runs the teardown in the
claimed order — conditional disables of the camera still and video
ports, unconditional disables of the encoder output and both splitter
outputs, then destruction of the two connections, then disabling of the
three components, then destruction of the two pools, and only then
destruction of the three components — so every port disable precedes
every destroy, and no connection, pool or component is destroyed while a
port it serves is still enabled. -/
theorem close_cam_disable_before_destroy (s : RState) (h : Initialized s) :
    (close_cam s).crashed = false ∧ (close_cam s).ret = 0 ∧
    (close_cam s).trace =
      (if s.ports.cameraStill then [Action.disablePort .cameraStill]
       else []) ++
      (if s.ports.cameraVideo then [Action.disablePort .cameraVideo]
       else []) ++
      [Action.disablePort .encoderOut, Action.disablePort .splitterOut0,
       Action.disablePort .splitterOut1,
       Action.destroyConnection .encoderConn,
       Action.destroyConnection .splitterConn,
       Action.disableComponent .encoder, Action.disableComponent .camera,
       Action.disableComponent .splitter,
       Action.destroyPool .splitterPool, Action.destroyPool .encoderPool,
       Action.destroyComponent .encoder, Action.destroyComponent .camera,
       Action.destroyComponent .splitter] ∧
    portDisablesBeforeDestroys (close_cam s).trace ∧
    noDestroyWhileEnabled s.ports (close_cam s).trace := by
  obtain ⟨h0, h1, h2, h3, h4, h5, h6, h7⟩ := h
  obtain ⟨i, w, ht, fr, q, m, hf, vf, br, cc, sc, ec, sconn, econn, epool,
    spool, ports, uds, ude⟩ := s
  simp only at h0 h1 h2 h3 h4 h5 h6 h7
  subst h1; subst h2; subst h3; subst h4; subst h5
  rcases epool with _ | ep
  · simp at h7
  rcases spool with _ | sp
  · simp at h6
  obtain ⟨pcv, pcs, ps0, ps1, peo⟩ := ports
  cases pcv <;> cases pcs <;> cases ps0 <;> cases ps1 <;> cases peo <;>
    simp only [close_cam, h0, if_neg, Option.isSome_some, if_true,
      if_false, Bool.true_eq_false, Bool.false_eq_true] <;>
    simp [h0] <;> decide

/-- Witness for C2 at the concrete initialized state. -/
theorem close_cam_disable_before_destroy_witness :
    Initialized stateCb ∧
    portDisablesBeforeDestroys (close_cam stateCb).trace ∧
    noDestroyWhileEnabled stateCb.ports (close_cam stateCb).trace := by
  have h := close_cam_disable_before_destroy stateCb (by decide)
  exact ⟨by decide, h.2.2.2.1, h.2.2.2.2⟩

/-- C3: For a delivery sequence of n-1 unflagged fragments followed by a
frame-end fragment, starting from an empty accumulator, the compressed
sink finalizes exactly one frame whose bytes are the concatenation of
all n fragments in delivery order, tagged "jpeg" and stamped with the
current sequence number; afterwards the accumulator is empty and the
sequence counter has increased by exactly one; and a buffer carrying
neither flag never causes an emission.  (Emission is modelled as the
finalization of the compressed message — the outward publish transport
is outside the core per the spec; the camera-info record is published at
the same point.) -/
theorem encoder_frame_assembly (en : Bool) (tfp : String) (now : Nat)
    (frags : List Buffer) (last : Buffer) (ps : RState)
    (msg : CompressedMsg) (u : PortUserdata)
    (hf : ∀ b ∈ frags,
      b.flagFrameEnd = false ∧ b.flagTransmissionFailed = false)
    (hl : last.flagFrameEnd = true)
    (hinit : ps.isInit ≠ 0) (hpool : ps.encoder_pool.isSome = true)
    (hacc : msg.data = []) :
    (runEncoderCallbacks en tfp now ps msg (some u)
        (frags ++ [last])).emitted
      = [⟨concatBytes (frags ++ [last]), u.frame, tfp ++ "/camera", now,
          "jpeg"⟩] ∧
    (runEncoderCallbacks en tfp now ps msg (some u)
      (frags ++ [last])).msg.data = [] ∧
    (runEncoderCallbacks en tfp now ps msg (some u)
        (frags ++ [last])).userdata
      = some ⟨u.abort, u.frame + 1, 0⟩ ∧
    (runEncoderCallbacks en tfp now ps msg (some u)
      (frags ++ [last])).crashedAny = false ∧
    (∀ (ud : Option PortUserdata) (ps' : RState) (msg' : CompressedMsg)
       (b : Buffer),
      b.flagFrameEnd = false → b.flagTransmissionFailed = false →
      (encoder_buffer_callback en ud ps' msg' tfp now b).emitted
        = none) := by
  obtain ⟨r1, r2, r3, r4⟩ := runEnc_assembles en tfp now frags last hf
    (Or.inl hl) ps msg u hinit hpool
  rw [hacc] at r1
  refine ⟨by simpa using r1, r2, r3, r4, ?_⟩
  intro ud ps' msg' b h1 h2
  rcases ud with _ | u'
  · cases en <;> rcases hq : ps'.encoder_pool with _ | pool <;>
      simp [encoder_buffer_callback, hq]
  · cases en
    · simp [encoder_buffer_callback, h1, h2]
      split_ifs <;> simp
    · rcases hq : ps'.encoder_pool with _ | pool
      · simp [encoder_buffer_callback, hq, h1, h2]
        split_ifs <;> simp
      · rcases hqq : pool.queue with _ | ⟨x, xs⟩ <;>
          simp [encoder_buffer_callback, hq, hqq, h1, h2] <;>
          split_ifs <;> simp

/-- Witness for C3: three concrete fragments assemble into one frame. -/
theorem encoder_frame_assembly_witness :
    (runEncoderCallbacks true "" 7 stateCb msgCb (some ⟨0, 5, 0⟩)
        ([⟨[1, 2], false, false⟩, ⟨[3], false, false⟩] ++
          [⟨[4, 5], true, false⟩])).emitted
      = [⟨[1, 2, 3, 4, 5], 5, "/camera", 7, "jpeg"⟩] ∧
    (runEncoderCallbacks true "" 7 stateCb msgCb (some ⟨0, 5, 0⟩)
      ([⟨[1, 2], false, false⟩, ⟨[3], false, false⟩] ++
        [⟨[4, 5], true, false⟩])).msg.data = [] ∧
    (runEncoderCallbacks true "" 7 stateCb msgCb (some ⟨0, 5, 0⟩)
        ([⟨[1, 2], false, false⟩, ⟨[3], false, false⟩] ++
          [⟨[4, 5], true, false⟩])).userdata
      = some ⟨0, 6, 0⟩ := by
  have h := encoder_frame_assembly true "" 7
    [⟨[1, 2], false, false⟩, ⟨[3], false, false⟩] ⟨[4, 5], true, false⟩
    stateCb msgCb ⟨0, 5, 0⟩ (by decide) rfl (by decide) (by decide) rfl
  refine ⟨?_, h.2.1, h.2.2.1⟩
  rw [h.1]; decide

/-- C4: Calling start-capture twice without an intervening stop: the
first call (from an uninitialized state, with all driver calls
succeeding) leaves `isInit = 1`, so the second call skips `init_cam`
entirely — its trace contains no component, connection or pool creation
— returns 0, and leaves every stage, connection and pool handle of the
state unchanged (pool identities unchanged; only their free queues are
re-drained). -/
theorem start_capture_idempotent (s : RState) (d e : Driver)
    (h0 : s.isInit = 0) (hd : d.AllOk) (he : e.setCaptureOk = true) :
    (start_capture d s).state.isInit = 1 ∧
    (∀ a ∈ (start_capture e (start_capture d s).state).trace,
      a.isCreate = false) ∧
    (start_capture e (start_capture d s).state).ret = 0 ∧
    (start_capture e (start_capture d s).state).crashed = false ∧
    (start_capture e (start_capture d s).state).state.camera_component
      = (start_capture d s).state.camera_component ∧
    (start_capture e (start_capture d s).state).state.splitter_component
      = (start_capture d s).state.splitter_component ∧
    (start_capture e (start_capture d s).state).state.encoder_component
      = (start_capture d s).state.encoder_component ∧
    (start_capture e (start_capture d s).state).state.splitter_connection
      = (start_capture d s).state.splitter_connection ∧
    (start_capture e (start_capture d s).state).state.encoder_connection
      = (start_capture d s).state.encoder_connection ∧
    ((start_capture e (start_capture d s).state).state.splitter_pool.map
        fun p => (p.srcPort, p.bufferNum, p.bufferSize))
      = ((start_capture d s).state.splitter_pool.map
        fun p => (p.srcPort, p.bufferNum, p.bufferSize)) ∧
    ((start_capture e (start_capture d s).state).state.encoder_pool.map
        fun p => (p.srcPort, p.bufferNum, p.bufferSize))
      = ((start_capture d s).state.encoder_pool.map
        fun p => (p.srcPort, p.bufferNum, p.bufferSize)) := by
  obtain ⟨d1, d2, d3, d4, d5, d6, d7, d8, d9, d10, d11, d12, d13, d14, d15,
    d16, d17, d18, d19⟩ := hd
  simp [start_capture, init_cam, init_cam_wiring, create_camera_component,
    create_splitter_component, create_encoder_component, connect_ports,
    splitter_output_init, get_status, h0, d1, d2, d3, d4, d5, d6, d7, d8,
    d9, d10, d11, d12, d13, d14, d15, d16, d17, d18, d19, he,
    Action.isCreate, Ports.setEnabled, zeroedState]

/-- Witness for C4 at the all-succeeding driver. -/
theorem start_capture_idempotent_witness :
    zeroedState.isInit = 0 ∧ driverW.AllOk ∧
    (start_capture driverW zeroedState).state.isInit = 1 ∧
    (start_capture driverW (start_capture driverW zeroedState).state).ret
      = 0 := by
  have h := start_capture_idempotent zeroedState driverW driverW rfl
    (by decide) rfl
  exact ⟨rfl, by decide, h.1, h.2.2.1⟩

/-- C5 counterexample: with every component created and the
splitter-to-encoder connection creation failing, `init_cam` reports
failure (returns 1) but releases nothing — all three component handles
and the first connection remain in the state, and the trace contains no
destroy at all, refuting the claim that every stage, pool and connection
created so far is released. -/
theorem init_cam_no_rollback_cex :
    (init_cam driverConnFail zeroedState).ret = 1 ∧
    (init_cam driverConnFail zeroedState).state.isInit = 0 ∧
    (init_cam driverConnFail zeroedState).state.camera_component
      = some () ∧
    (init_cam driverConnFail zeroedState).state.splitter_component
      = some () ∧
    (init_cam driverConnFail zeroedState).state.encoder_component
      = some () ∧
    (init_cam driverConnFail zeroedState).state.splitter_connection
      = some () ∧
    (∀ a ∈ (init_cam driverConnFail zeroedState).trace,
      a.isDestroy = false) := by
  decide

/-- C5 (amended): In the wiring phase, a detected failure — the
splitter-to-encoder connection failing, or either callback-port enable
failing — makes `init_cam` report failure with `isInit` still 0, but the
stages, pools and connections created so far are NOT released; moreover
a splitter pool-creation failure is never checked (setup completes with
`isInit = 1` and a null pool), and a failure of the camera-to-splitter
connection alone is masked because its status is overwritten by the
second `connect_ports` call. -/
theorem init_cam_failure_behavior :
    (∀ (d : Driver) (s : RState), d.ComponentsOk →
      (d.connSplitEncCreateOk = false ∨
       (d.connSplitEncCreateOk = true ∧ d.connSplitEncEnableOk = false) ∨
       (d.connSplitEncCreateOk = true ∧ d.connSplitEncEnableOk = true ∧
        d.enableSplitterOut0Ok = false) ∨
       (d.connSplitEncCreateOk = true ∧ d.connSplitEncEnableOk = true ∧
        d.enableSplitterOut0Ok = true ∧ d.enableEncoderOutOk = false)) →
      (init_cam d s).ret = 1 ∧ (init_cam d s).state.isInit = 0 ∧
      (init_cam d s).state.camera_component = some () ∧
      (init_cam d s).state.splitter_component = some () ∧
      (init_cam d s).state.encoder_component = some ()) ∧
    (∀ (d : Driver) (s : RState), d.ComponentsOk →
      d.connSplitEncCreateOk = true → d.connSplitEncEnableOk = true →
      d.enableSplitterOut0Ok = true → d.enableEncoderOutOk = true →
      d.splitterPool1Ok = false →
      (init_cam d s).ret = 0 ∧ (init_cam d s).state.isInit = 1 ∧
      (init_cam d s).state.splitter_pool = none) ∧
    (∀ (d : Driver) (s : RState), d.ComponentsOk →
      d.connCamSplitCreateOk = false →
      d.connSplitEncCreateOk = true → d.connSplitEncEnableOk = true →
      d.enableSplitterOut0Ok = true → d.enableEncoderOutOk = true →
      (init_cam d s).ret = 0 ∧ (init_cam d s).state.isInit = 1 ∧
      (init_cam d s).state.splitter_connection = none) := by
  refine ⟨?_, ?_, ?_⟩
  · intro d s hcomp hfail
    obtain ⟨s3, t3, heq, hi, hc, hs, he, hconn⟩ :=
      init_cam_reaches_wiring d s hcomp
    rw [heq]
    obtain ⟨w1, w2, w3, w4, w5⟩ :=
      wiring_fail_keeps_handles d s3 (get_status d.params).tfPre t3 hfail
    exact ⟨w1, by rw [w2, hi], by rw [w3, hc], by rw [w4, hs],
      by rw [w5, he]⟩
  · intro d s hcomp h1 h2 h3 h4 h5
    obtain ⟨s3, t3, heq, hi, hc, hs, he, hconn⟩ :=
      init_cam_reaches_wiring d s hcomp
    rw [heq]
    exact wiring_pool_failure_ignored d s3 (get_status d.params).tfPre t3
      h1 h2 h3 h4 h5
  · intro d s hcomp h0 h1 h2 h3 h4
    obtain ⟨s3, t3, heq, hi, hc, hs, he, hconn⟩ :=
      init_cam_reaches_wiring d s hcomp
    rw [heq]
    obtain ⟨w1, w2, w3⟩ := wiring_first_conn_failure_ignored d s3
      (get_status d.params).tfPre t3 h0 h1 h2 h3 h4
    exact ⟨w1, w2, by rw [w3, hconn]⟩

/-- Witness for the amended C5: concrete failing driver. -/
theorem init_cam_failure_behavior_witness :
    driverConnFail.ComponentsOk ∧
    driverConnFail.connSplitEncCreateOk = false ∧
    (init_cam driverConnFail zeroedState).ret = 1 ∧
    (init_cam driverConnFail zeroedState).state.camera_component
      = some () := by
  have h := (init_cam_failure_behavior).1 driverConnFail zeroedState
    (by decide) (Or.inl (by decide))
  exact ⟨by decide, by decide, h.1, h.2.2.1⟩

/-- C6: For every combination of supplied parameters, `get_status`
produces width in [1,1920], height in [1,1080], quality in [1,100],
framerate in [1,90] and bitrate at most 25000000; a supplied
out-of-range value is replaced by the documented default (width 640,
height 480, quality 70, framerate 30; a bitrate above the cap becomes
the default 25000000), an in-range value is kept, and an absent
parameter yields its default. -/
theorem get_status_bounds (p : RosParams) :
    (1 ≤ (get_status p).state.width ∧ (get_status p).state.width ≤ 1920 ∧
      (p.width = none → (get_status p).state.width = 640) ∧
      (∀ v, p.width = some v → ¬(0 < v ∧ v ≤ 1920) →
        (get_status p).state.width = 640) ∧
      (∀ v, p.width = some v → 0 < v → v ≤ 1920 →
        (get_status p).state.width = v)) ∧
    (1 ≤ (get_status p).state.height ∧ (get_status p).state.height ≤ 1080 ∧
      (p.height = none → (get_status p).state.height = 480) ∧
      (∀ v, p.height = some v → ¬(0 < v ∧ v ≤ 1080) →
        (get_status p).state.height = 480) ∧
      (∀ v, p.height = some v → 0 < v → v ≤ 1080 →
        (get_status p).state.height = v)) ∧
    (1 ≤ (get_status p).state.quality ∧
      (get_status p).state.quality ≤ 100 ∧
      (p.quality = none → (get_status p).state.quality = 70) ∧
      (∀ v, p.quality = some v → ¬(0 < v ∧ v ≤ 100) →
        (get_status p).state.quality = 70) ∧
      (∀ v, p.quality = some v → 0 < v → v ≤ 100 →
        (get_status p).state.quality = v)) ∧
    (1 ≤ (get_status p).state.framerate ∧
      (get_status p).state.framerate ≤ 90 ∧
      (p.framerate = none → (get_status p).state.framerate = 30) ∧
      (∀ v, p.framerate = some v → ¬(0 < v ∧ v ≤ 90) →
        (get_status p).state.framerate = 30) ∧
      (∀ v, p.framerate = some v → 0 < v → v ≤ 90 →
        (get_status p).state.framerate = v)) ∧
    ((get_status p).state.bitrate ≤ 25000000 ∧
      (p.bitrate = none → (get_status p).state.bitrate = 25000000) ∧
      (∀ v, p.bitrate = some v → 25000000 < v →
        (get_status p).state.bitrate = 25000000)) := by
  obtain ⟨w, h, q, fr, m, br, hf, vf, tp⟩ := p
  refine ⟨?_, ?_, ?_, ?_, ?_⟩
  · rcases w with _ | v
    · simp [get_status]
    · by_cases hv : 0 < v ∧ v ≤ 1920 <;> simp [get_status, hv] <;> omega
  · rcases h with _ | v
    · simp [get_status]
    · by_cases hv : 0 < v ∧ v ≤ 1080 <;> simp [get_status, hv] <;> omega
  · rcases q with _ | v
    · simp [get_status]
    · by_cases hv : 0 < v ∧ v ≤ 100 <;> simp [get_status, hv] <;> omega
  · rcases fr with _ | v
    · simp [get_status]
    · by_cases hv : 0 < v ∧ v ≤ 90 <;> simp [get_status, hv] <;> omega
  · rcases br with _ | v
    · simp [get_status]
    · by_cases hv : 25000000 < v
      · simp [get_status, hv]
      · simp [get_status, hv]; omega

/-- Witness for C6 at the all-defaults parameter assignment. -/
theorem get_status_bounds_witness :
    (get_status paramsW).state.width = 640 ∧
    1 ≤ (get_status paramsW).state.width := by
  have h := get_status_bounds paramsW
  exact ⟨h.1.2.2.2.2 640 rfl (by norm_num) (by norm_num), h.1.1⟩

/-- C7 counterexample: in `start_capture` on an initialized pipeline the
buffer submissions do not precede the capture-enable call — the trace
puts `setCaptureFlag` first and every `sendBuffer` after it, refuting
the claim that every buffer submission precedes the call enabling the
camera capture flag. -/
theorem start_capture_priming_after_capture_cex :
    ¬ (∀ i j : Fin (start_capture driverW stateCb).trace.length,
        ((start_capture driverW stateCb).trace.get i).isSend = true →
        (start_capture driverW stateCb).trace.get j = Action.setCaptureFlag →
        (i : Nat) < (j : Nat)) := by decide

/-- C7 (amended): On an initialized pipeline, `start_capture` first
issues the capture-enable call and then hands every free buffer of the
splitter pool to splitter output 0 and every free buffer of the encoder
pool to the encoder output port — all submissions happen inside the same
call, after (not before) enabling capture — leaving both free queues
empty and returning 0. -/
theorem start_capture_capture_then_priming (s : RState) (d : Driver)
    (h : Initialized s) (sp ep : Pool)
    (hsp : s.splitter_pool = some sp) (hep : s.encoder_pool = some ep)
    (hc : d.setCaptureOk = true) :
    (start_capture d s).trace =
      Action.setCaptureFlag ::
        (sp.queue.map (Action.sendBuffer .splitterOut0) ++
         ep.queue.map (Action.sendBuffer .encoderOut)) ∧
    (start_capture d s).ret = 0 ∧ (start_capture d s).crashed = false ∧
    (start_capture d s).state.splitter_pool = some { sp with queue := [] } ∧
    (start_capture d s).state.encoder_pool
      = some { ep with queue := [] } := by
  obtain ⟨h0, h1, h2, h3, h4, h5, h6, h7⟩ := h
  simp [start_capture, h0, h1, h2, h3, hsp, hep, hc]

/-- Witness for the amended C7 at the concrete initialized state. -/
theorem start_capture_capture_then_priming_witness :
    Initialized stateCb ∧
    (start_capture driverW stateCb).trace =
      Action.setCaptureFlag ::
        (([0, 1, 2] : List Nat).map (Action.sendBuffer .splitterOut0) ++
         ([0, 1, 2] : List Nat).map (Action.sendBuffer .encoderOut)) := by
  have h := start_capture_capture_then_priming stateCb driverW (by decide)
    ⟨.splitterOut1, 3, 921600, [0, 1, 2]⟩ ⟨.encoderOut, 3, 262144, [0, 1, 2]⟩
    rfl rfl rfl
  exact ⟨by decide, h.1⟩

/-- C8 counterexample: a buffer carrying the transmission-failed flag is
emitted (the finalization branch runs), but the userdata abort indicator
is NOT set to 1 — it stays 0 — refuting the claim that the sink sets
`abort = 1` on transmission failure. -/
theorem transmission_failed_abort_cex :
    ((encoder_buffer_callback true (some ⟨0, 5, 0⟩) stateCb
        ⟨[1, 2], 3, "", 0, ""⟩ "" 7 ⟨[9], false, true⟩).emitted).isSome
      = true ∧
    (encoder_buffer_callback true (some ⟨0, 5, 0⟩) stateCb
        ⟨[1, 2], 3, "", 0, ""⟩ "" 7 ⟨[9], false, true⟩).userdata.map
      PortUserdata.abort = some 0 ∧
    ¬ ((encoder_buffer_callback true (some ⟨0, 5, 0⟩) stateCb
        ⟨[1, 2], 3, "", 0, ""⟩ "" 7 ⟨[9], false, true⟩).userdata.map
      PortUserdata.abort = some 1) := by decide

/-- C8 (amended): A buffer carrying the transmission-failed flag is
treated as ending the frame — the assembled (possibly truncated) frame
is finalized with the accumulated bytes rather than discarded, the
accumulator is cleared and the frame counter incremented — but the
abort indicator is not set: it keeps its previous value, because the
only write of `abort = 1` sits in an unreachable short-write branch. -/
theorem transmission_failed_emits_no_abort (en : Bool) (u : PortUserdata)
    (ps : RState) (msg : CompressedMsg) (tfp : String) (now : Nat)
    (b : Buffer)
    (ht : b.flagTransmissionFailed = true)
    (hinit : ps.isInit ≠ 0) (hpool : ps.encoder_pool.isSome = true) :
    (encoder_buffer_callback en (some u) ps msg tfp now b).emitted
      = some ⟨msg.data ++ b.data, u.frame, tfp ++ "/camera", now, "jpeg"⟩ ∧
    (encoder_buffer_callback en (some u) ps msg tfp now b).msg.data = [] ∧
    (encoder_buffer_callback en (some u) ps msg tfp now b).userdata
      = some ⟨u.abort, u.frame + 1, 0⟩ := by
  obtain ⟨e1, e2, e3, _, _⟩ :=
    enc_cb_step_flag en u ps msg tfp now b (Or.inr ht) hinit hpool
  exact ⟨e1, e2, e3⟩

/-- Witness for the amended C8 at a concrete truncated frame. -/
theorem transmission_failed_emits_no_abort_witness :
    (encoder_buffer_callback true (some ⟨0, 5, 0⟩) stateCb
        ⟨[1, 2], 3, "", 0, ""⟩ "" 7 ⟨[9], false, true⟩).emitted
      = some ⟨[1, 2, 9], 5, "/camera", 7, "jpeg"⟩ ∧
    (encoder_buffer_callback true (some ⟨0, 5, 0⟩) stateCb
        ⟨[1, 2], 3, "", 0, ""⟩ "" 7 ⟨[9], false, true⟩).userdata
      = some ⟨0, 6, 0⟩ := by
  have h := transmission_failed_emits_no_abort true ⟨0, 5, 0⟩ stateCb
    ⟨[1, 2], 3, "", 0, ""⟩ "" 7 ⟨[9], false, true⟩ rfl (by decide)
    (by decide)
  refine ⟨?_, h.2.2⟩
  rw [h.1]; decide

/-- C9: `close_cam` on a pipeline that is not running (`isInit = 0`) is a
no-op: it disables and destroys nothing (empty trace), leaves the state
untouched, and returns 1 — the already-stopped indicator, distinct from
the 0 of an actual teardown — while the externally visible stop-capture
service still reports success (`true`). -/
theorem close_cam_not_running_noop (s : RState) (h : s.isInit = 0) :
    close_cam s = ⟨s, [], 1, false⟩ ∧ serv_stop_cap s = (s, true) := by
  simp [close_cam, serv_stop_cap, h]

/-- Witness for C9 at the zeroed state. -/
theorem close_cam_not_running_noop_witness :
    zeroedState.isInit = 0 ∧
    close_cam zeroedState = ⟨zeroedState, [], 1, false⟩ ∧
    serv_stop_cap zeroedState = (zeroedState, true) := by
  have h := close_cam_not_running_noop zeroedState rfl
  exact ⟨rfl, h.1, h.2⟩

/-- C10: After a successful `init_cam`, the state references exactly one
splitter pool handle: `splitter_output_init` runs for both splitter
outputs and each run assigns `splitter_pool`, so the final handle is the
pool created from splitter output 1 (its port tag and driver-negotiated
size), the trace shows two splitter pool creations (the first pool is
orphaned), and both the priming loop of `start_capture` and the raw
callback resubmission supply splitter output 0 from that output-1
pool. -/
theorem splitter_pool_single_handle (d e : Driver) (s : RState)
    (hd : d.AllOk) (he : e.setCaptureOk = true) :
    (init_cam d s).ret = 0 ∧
    (init_cam d s).state.splitter_pool
      = some ⟨.splitterOut1, 3, d.splitterOut1Size, List.range 3⟩ ∧
    ((init_cam d s).trace.count (Action.createPool .splitterPool)) = 2 ∧
    (start_capture e (init_cam d s).state).trace.take 4
      = [Action.setCaptureFlag,
         Action.sendBuffer .splitterOut0 0,
         Action.sendBuffer .splitterOut0 1,
         Action.sendBuffer .splitterOut0 2] ∧
    (∀ (raw : RawMsg) (tfp : String) (now : Nat) (buf : Buffer),
      (camera_buffer_callback true (init_cam d s).state.splitterOutUserdata
        (init_cam d s).state raw tfp now buf).resubmitted = some 0) := by
  obtain ⟨d1, d2, d3, d4, d5, d6, d7, d8, d9, d10, d11, d12, d13, d14, d15,
    d16, d17, d18, d19⟩ := hd
  refine ⟨?_, ?_, ?_, ?_, ?_⟩ <;>
    simp [start_capture, init_cam, init_cam_wiring, create_camera_component,
      create_splitter_component, create_encoder_component, connect_ports,
      splitter_output_init, get_status, d1, d2, d3, d4, d5, d6, d7, d8, d9,
      d10, d11, d12, d13, d14, d15, d16, d17, d18, d19, he,
      Ports.setEnabled, zeroedState, List.range_succ,
      camera_buffer_callback]

/-- Witness for C10 at the all-succeeding driver. -/
theorem splitter_pool_single_handle_witness :
    driverW.AllOk ∧
    (init_cam driverW zeroedState).state.splitter_pool
      = some ⟨.splitterOut1, 3, driverW.splitterOut1Size, List.range 3⟩ ∧
    ((init_cam driverW zeroedState).trace.count
      (Action.createPool .splitterPool)) = 2 := by
  have h := splitter_pool_single_handle driverW driverW zeroedState
    (by decide) rfl
  exact ⟨by decide, h.2.1, h.2.2.1⟩

end Raspicam
